import Mathlib

/-!
Verification development for the Tobot PicoRemote firmware
(`Tobot.PicoRemote/remote-control.py`).

The firmware is a single-threaded control loop: it tracks three global
boolean status flags (`boot_status`, `wifi_status`, `remote_status`),
renders them together with a fixed controller legend onto a 16-key RGB
keypad, detects rising edges on a polled key bitmask, and relays mapped
key presses as HTTP GET requests to a remote endpoint.

This file shallowly embeds that code: the global flags become an explicit
`Flags` record threaded through the functions, LED output becomes a pure
`Leds` map updated by `illuminate`, network I/O becomes an explicit
`Option HttpResp` environment outcome (`none` models a raised socket
exception), and observable side effects (HTTP calls, state writes,
display redraws) are recorded as an event trace.
-/

namespace Tobot

/-- RGB color triple as passed to `keypad.illuminate`. -/
abbrev Color := Nat × Nat × Nat

def OFF : Color := (0, 0, 0)

def GREEN : Color := (0, 255, 0)

def GREEN_DIM : Color := (0, 127, 0)

def RED : Color := (255, 0, 0)

def BLUE : Color := (0, 0, 255)

def BLUE_DIM : Color := (0, 0, 127)

def PURPLE : Color := (128, 0, 255)

def ORANGE : Color := (255, 128, 0)

def WHITE_DIM : Color := (96, 96, 96)

def STATUS_BOOT_PAD : Nat := 0

def STATUS_WIFI_PAD : Nat := 1

def STATUS_REMOTE_PAD : Nat := 2

def STATUS_COMPANION_PAD : Nat := 3

def CONTROLLER_UP : Nat := 6

def CONTROLLER_LEFT : Nat := 9

def CONTROLLER_STOP : Nat := 10

def CONTROLLER_RIGHT : Nat := 11

def CONTROLLER_DOWN : Nat := 14

def FUNCTION_KEY_1 : Nat := 4

def FUNCTION_KEY_2 : Nat := 8

def FUNCTION_KEY_3 : Nat := 12

/-- `keypad.get_num_pads()` on the 16-key Pimoroni PicoKeypad. -/
def NUM_PADS : Nat := 16

/-- The key-to-action map `CONTROLLER_ACTIONS`, in its source definition
(insertion) order, which is the order `dict.items()` iterates it. -/
def CONTROLLER_ACTIONS : List (Nat × String) :=
  [(CONTROLLER_UP, "forward"),
   (CONTROLLER_LEFT, "left"),
   (CONTROLLER_STOP, "stop"),
   (CONTROLLER_RIGHT, "right"),
   (CONTROLLER_DOWN, "backwards"),
   (FUNCTION_KEY_1, "light-on"),
   (FUNCTION_KEY_2, "light-off")]

/-- The firmware's three global status flags. -/
structure Flags where
  boot_status : Bool
  wifi_status : Bool
  remote_status : Bool
  deriving Repr, DecidableEq

/-- All three flags start false at process start. -/
def initialFlags : Flags := ⟨false, false, false⟩

/-- Result of a completed `http_get`: parsed status code and body bytes. -/
abbrev HttpResp := Int × List Char

/-- Observable side effects of the remote-link operations, in order of
occurrence.  `httpCall` is the transport round trip, `setRemote` an
assignment to the global `remote_status`, and `render` a call to
`show_controller_pattern` recording the flags it observes. -/
inductive Event where
  | httpCall (query : String)
  | setRemote (value : Bool)
  | render (observed : Flags)
  deriving Repr, DecidableEq

/-- `send_action(action)`: gated on `wifi_status`; on a completed call it
succeeds iff the status is 200; on a non-200 status or a raised transport
exception (`resp = none`) it sets `remote_status := False` and then calls
`show_controller_pattern()`.  Returns the success boolean, the updated
flags, and the event trace. -/
def send_action (action : String) (f : Flags) (resp : Option HttpResp) :
    Bool × Flags × List Event :=
  if f.wifi_status = false then
    (false, f, [])
  else
    match resp with
    | some (status, _) =>
        let ok := status == 200
        if ok then
          (true, f, [.httpCall ("action=" ++ action)])
        else
          let f' := { f with remote_status := false }
          (false, f', [.httpCall ("action=" ++ action), .setRemote false, .render f'])
    | none =>
        let f' := { f with remote_status := false }
        (false, f', [.httpCall ("action=" ++ action), .setRemote false, .render f'])

/-- `check_remote_endpoint()`: if `wifi_status` is false, sets
`remote_status := False` and returns false without any network call;
otherwise issues `http_get("action=ping")` and stores `status == 200`
into `remote_status` (a raised exception stores false).  The third
component counts transport calls performed. -/
def check_remote_endpoint (f : Flags) (resp : Option HttpResp) :
    Bool × Flags × Nat :=
  if f.wifi_status = false then
    (false, { f with remote_status := false }, 0)
  else
    match resp with
    | some (status, _) =>
        let r := status == 200
        (r, { f with remote_status := r }, 1)
    | none =>
        (false, { f with remote_status := false }, 1)

/-- The rising-edge test from `handle_keypad_events`:
`(button_states & button_bit) and not (last_button_states & button_bit)`
with `button_bit = 1 << pad_index` (Python truthiness of an int is
nonzero-ness). -/
def newly_pressed (last cur pad : Nat) : Bool :=
  (cur &&& (1 <<< pad) != 0) && !(last &&& (1 <<< pad) != 0)

/-- One pass of the `for pad_index, action in CONTROLLER_ACTIONS.items()`
loop: the map entries whose key is newly pressed, in iteration order. -/
def risingEdges (last cur : Nat) : List (Nat × String) :=
  CONTROLLER_ACTIONS.filter (fun p => newly_pressed last cur p.1)

/-- The key indices dispatched (via `send_action`) between two
consecutive bitmask samples, in the order the loop visits them. -/
def dispatched (last cur : Nat) : List Nat :=
  (risingEdges last cur).map Prod.fst

/-! ### Boot sequence and keypad loop -/

/-- The flag states `initialize()` passes through, in order: process
start, after `boot_status = True`, after `connect_wifi()`, after
`check_remote_endpoint()`.  With missing credentials it returns right
away, so only the all-false initial state occurs.  `credsOk` is
`CREDENTIALS_OK`, `wifiOk` the outcome of the bounded association wait,
`pingResp` the transport outcome of the ping GET (unconsulted when no
call is made). -/
def initFlagsTrace (credsOk wifiOk : Bool) (pingResp : Option HttpResp) : List Flags :=
  if credsOk = false then [initialFlags]
  else
    let f1 := { initialFlags with boot_status := true }
    let f2 := { f1 with wifi_status := wifiOk }
    let f3 := (check_remote_endpoint f2 pingResp).2.1
    [initialFlags, f1, f2, f3]

/-- Observable hardware/network steps of `initialize()`: a status-row
refresh (`update_status_leds`), the WiFi association attempt inside
`connect_wifi`, the remote check (recording whether a transport call was
performed), and the controller-layout render (`show_controller_pattern`),
each recording the flags it observes where relevant. -/
inductive BootEvent where
  | statusRender (observed : Flags)
  | wifiAttempt
  | remoteCheck (performedCall : Bool)
  | layoutRender (observed : Flags)
  deriving Repr, DecidableEq

/-- `initialize()` shallowly embedded: final flags plus the ordered trace
of its hardware/network steps. -/
def runBoot (credsOk wifiOk : Bool) (pingResp : Option HttpResp) :
    Flags × List BootEvent :=
  if credsOk = false then (initialFlags, [])
  else
    let f1 := { initialFlags with boot_status := true }
    let f2 := { f1 with wifi_status := wifiOk }
    let c := check_remote_endpoint f2 pingResp
    let f3 := c.2.1
    (f3, [.statusRender f1, .wifiAttempt, .statusRender f2,
          .remoteCheck (c.2.2 == 1), .statusRender f3, .layoutRender f3])

/-- Flag effect of a sequence of `send_action` calls, each with its own
transport outcome. -/
def runActions (f : Flags) : List (String × Option HttpResp) → Flags
  | [] => f
  | (a, r) :: rest => runActions (send_action a f r).2.1 rest

/-- Environment of one iteration of the `while True` loop in
`handle_keypad_events`: previous and current button bitmasks and the
transport outcome of the k-th dispatched send. -/
structure IterIn where
  last : Nat
  cur : Nat
  resps : Nat → Option HttpResp

/-- Flag effect of one loop iteration: every newly pressed mapped key
sends its action in key-map iteration order; the periodic
`show_controller_pattern()` refresh reads but never writes the flags. -/
def loopIter (f : Flags) (it : IterIn) : Flags :=
  runActions f
    (((risingEdges it.last it.cur).map Prod.snd).enum.map (fun p => (p.2, it.resps p.1)))

/-- Flag effect of a whole run of the keypad loop. -/
def runLoop (f : Flags) : List IterIn → Flags
  | [] => f
  | it :: rest => runLoop (loopIter f it) rest

/-- Flag states reachable over a whole program run: every state
`initialize()` passes through under some environment, closed under
further `send_action` transitions — the only flag mutations performed by
the keypad loop. -/
inductive Reachable : Flags → Prop where
  | ofBoot (credsOk wifiOk : Bool) (pingResp : Option HttpResp) (f : Flags) :
      f ∈ initFlagsTrace credsOk wifiOk pingResp → Reachable f
  | ofSend (a : String) (r : Option HttpResp) (f : Flags) :
      Reachable f → Reachable (send_action a f r).2.1

/-! ### LED rendering -/

/-- The staged per-key backlight colors; index `i` is pad `i`.  Indices
at or above `NUM_PADS` are never written by the firmware. -/
abbrev Leds := Nat → Color

/-- `keypad.illuminate(i, r, g, b)`: stage the color of pad `i`. -/
def illuminate (leds : Leds) (i : Nat) (c : Color) : Leds :=
  fun j => if j = i then c else leds j

/-- `update_status_leds()`: boot/WiFi/remote pads green-dim or red from
their flags, companion pad fixed orange, then `keypad.update()` flushes
the staged colors. -/
def update_status_leds (f : Flags) (leds : Leds) : Leds :=
  let l1 := illuminate leds STATUS_BOOT_PAD (if f.boot_status then GREEN_DIM else RED)
  let l2 := illuminate l1 STATUS_WIFI_PAD (if f.wifi_status then GREEN_DIM else RED)
  let l3 := illuminate l2 STATUS_REMOTE_PAD (if f.remote_status then GREEN_DIM else RED)
  illuminate l3 STATUS_COMPANION_PAD ORANGE

/-- The `for i in range(NUM_PADS)` loop of `show_controller_pattern`,
having processed pads `0, …, n-1`: every pad except the three status
indicators gets the dim white baseline. -/
def baselineLoop (leds : Leds) : Nat → Leds
  | 0 => leds
  | n + 1 =>
      let acc := baselineLoop leds n
      if n = STATUS_BOOT_PAD ∨ n = STATUS_WIFI_PAD ∨ n = STATUS_REMOTE_PAD then acc
      else illuminate acc n WHITE_DIM

/-- `show_controller_pattern()`: white-dim baseline, blue-dim
directional/stop keys, purple function keys, then `update_status_leds()`
last. -/
def show_controller_pattern (f : Flags) (leds : Leds) : Leds :=
  let base := baselineLoop leds NUM_PADS
  let l1 := illuminate base CONTROLLER_UP BLUE_DIM
  let l2 := illuminate l1 CONTROLLER_LEFT BLUE_DIM
  let l3 := illuminate l2 CONTROLLER_STOP BLUE_DIM
  let l4 := illuminate l3 CONTROLLER_RIGHT BLUE_DIM
  let l5 := illuminate l4 CONTROLLER_DOWN BLUE_DIM
  let l6 := illuminate l5 FUNCTION_KEY_1 PURPLE
  let l7 := illuminate l6 FUNCTION_KEY_2 PURPLE
  let l8 := illuminate l7 FUNCTION_KEY_3 PURPLE
  update_status_leds f l8

/-- The color a full redraw assigns to pad `j`, fully determined by the
flags. -/
def patternColor (f : Flags) (j : Nat) : Color :=
  if j = STATUS_BOOT_PAD then (if f.boot_status then GREEN_DIM else RED)
  else if j = STATUS_WIFI_PAD then (if f.wifi_status then GREEN_DIM else RED)
  else if j = STATUS_REMOTE_PAD then (if f.remote_status then GREEN_DIM else RED)
  else if j = STATUS_COMPANION_PAD then ORANGE
  else if j = CONTROLLER_UP ∨ j = CONTROLLER_LEFT ∨ j = CONTROLLER_STOP ∨
          j = CONTROLLER_RIGHT ∨ j = CONTROLLER_DOWN then BLUE_DIM
  else if j = FUNCTION_KEY_1 ∨ j = FUNCTION_KEY_2 ∨ j = FUNCTION_KEY_3 then PURPLE
  else WHITE_DIM

/-! ### HTTP response parsing -/

/-- ASCII whitespace as recognised by Python `bytes.split()` with no
separator argument. -/
def isPySpace (c : Char) : Bool :=
  c = ' ' || c = '\t' || c = '\n' || c = '\r' || c = Char.ofNat 11 || c = Char.ofNat 12

/-- Helper for `splitWS`, carrying the current token reversed. -/
def splitWSAux : List Char → List Char → List (List Char)
  | [], acc => if acc = [] then [] else [acc.reverse]
  | c :: rest, acc =>
      if isPySpace c then
        if acc = [] then splitWSAux rest []
        else acc.reverse :: splitWSAux rest []
      else splitWSAux rest (c :: acc)

/-- Python `bytes.split()` (no separator): split on whitespace runs,
yielding no empty tokens. -/
def splitWS (l : List Char) : List (List Char) := splitWSAux l []

/-- Python `data.split(sep, 1)` for nonempty `sep`: `[data]` when `sep`
does not occur, else the part before the first occurrence and everything
after it. -/
def splitOnce (sep : List Char) : List Char → List (List Char)
  | [] => [[]]
  | c :: rest =>
      if sep.isPrefixOf (c :: rest) then [[], (c :: rest).drop sep.length]
      else
        match splitOnce sep rest with
        | [] => [[c]]
        | pre :: post => (c :: pre) :: post

/-- Digit accumulation for Python `int()`: decimal digits with single
underscores allowed strictly between digits. -/
def pyIntDigits (acc : Nat) : List Char → Option Nat
  | [] => some acc
  | c :: rest =>
      if c.isDigit then pyIntDigits (acc * 10 + (c.toNat - 48)) rest
      else if c = '_' then
        match rest with
        | [] => none
        | d :: rest2 =>
            if d.isDigit then pyIntDigits (acc * 10 + (d.toNat - 48)) rest2
            else none
      else none

/-- The digit part of an `int()` literal: nonempty, starting with a
digit. -/
def pyIntNat : List Char → Option Nat
  | [] => none
  | c :: rest => if c.isDigit then pyIntDigits (c.toNat - 48) rest else none

/-- Python `int()` on a byte string: optional surrounding ASCII
whitespace, optional sign, then digits; `none` models a raised
`ValueError`. -/
def pyInt (s : List Char) : Option Int :=
  let t := ((s.dropWhile isPySpace).reverse.dropWhile isPySpace).reverse
  match t with
  | '+' :: rest => (pyIntNat rest).map (fun n => (n : Int))
  | '-' :: rest => (pyIntNat rest).map (fun n => -(n : Int))
  | rest => (pyIntNat rest).map (fun n => (n : Int))

def CRLF : List Char := ['\r', '\n']

def CRLFCRLF : List Char := ['\r', '\n', '\r', '\n']

/-- The pure response-parsing tail of `http_get` (the socket exchange is
the environment): split the raw bytes at `b"\r\n\r\n"` with maxsplit 1
into header and body, take the first header line, and parse its second
whitespace-delimited token as the status code — `0` if that raises. -/
def http_parse (data : List Char) : Int × List Char :=
  let parts := splitOnce CRLFCRLF data
  let header := parts.headD []
  let body := if parts.length > 1 then parts.getD 1 [] else []
  let first_line := (splitOnce CRLF header).headD []
  let status : Int :=
    match (splitWS first_line).get? 1 with
    | none => 0
    | some tok => (pyInt tok).getD 0
  (status, body)

/-- Least index at which `sep` occurs as a sublist of `l`, if any. -/
def findSub (sep : List Char) : List Char → Option Nat
  | [] => none
  | c :: rest =>
      if sep.isPrefixOf (c :: rest) then some 0
      else (findSub sep rest).map (· + 1)

/-- The spec's wording of the parser, for the refinement theorem: split
at the FIRST blank-line (CRLFCRLF) boundary into header block and body;
status code from the first header line's second whitespace-delimited
token, status 0 when that token is absent or non-numeric. -/
def spec_parse (data : List Char) : Int × List Char :=
  let hb : List Char × List Char :=
    match findSub CRLFCRLF data with
    | some i => (data.take i, data.drop (i + 4))
    | none => (data, [])
  let first_line : List Char :=
    match findSub CRLF hb.1 with
    | some i => hb.1.take i
    | none => hb.1
  let status : Int :=
    match (splitWS first_line).get? 1 with
    | none => 0
    | some tok => (pyInt tok).getD 0
  (status, hb.2)

/-! ### Theorems: `send_action` and `check_remote_endpoint` (C1, C4, C5) -/

/-- C1 counterexample: with `wifi_status = false` and a mapped key newly
pressed, `send_action` performs NO transport call, does not touch
`remote_status`, and triggers no redraw — the trace is empty and the
flags are returned unchanged, contradicting the claim that the transport
call is still attempted and the failure path fires. -/
theorem send_action_wifi_down_counterexample :
    send_action "stop" ⟨true, false, false⟩ (some (200, [])) =
      (false, ⟨true, false, false⟩, []) := by
  decide

/-- C1 (amended): whenever `wifi_status` is false, `send_action` returns
false immediately: no transport call is made, the flags (in particular
`remote_status`) are unchanged, and no redraw is triggered — `send_action`
gates on the link exactly as `ping` does. -/
theorem send_action_gates_on_wifi (action : String) (f : Flags)
    (resp : Option HttpResp) (h : f.wifi_status = false) :
    send_action action f resp = (false, f, []) := by
  simp [send_action, h]

/-- Witness for `send_action_gates_on_wifi` at a concrete input. -/
theorem send_action_gates_on_wifi_witness :
    send_action "stop" ⟨true, false, false⟩ (some (500, [])) =
      (false, ⟨true, false, false⟩, []) :=
  send_action_gates_on_wifi "stop" ⟨true, false, false⟩ (some (500, [])) rfl

/-- C4: on every failed `send_action` that actually attempted the call
(`wifi_status = true`), the event trace is exactly the transport call,
then the write `remote_status := false`, then the single triggered
render — and the render observes flags with `remote_status = false`.
The clear therefore happens strictly before the render, never in the
reverse order. -/
theorem send_action_failure_clears_then_renders (action : String) (f : Flags)
    (resp : Option HttpResp) (hw : f.wifi_status = true)
    (hfail : (send_action action f resp).1 = false) :
    (send_action action f resp).2.2 =
      [Event.httpCall ("action=" ++ action),
       Event.setRemote false,
       Event.render ((send_action action f resp).2.1)] ∧
    ((send_action action f resp).2.1).remote_status = false := by
  unfold send_action at *
  rw [hw] at *
  cases resp with
  | none => simp
  | some r =>
      obtain ⟨status, body⟩ := r
      by_cases h200 : status == 200
      · simp [h200] at hfail
      · simp [h200]

/-- Witness for `send_action_failure_clears_then_renders`: a simulated
500 response while the link is up. -/
theorem send_action_failure_clears_then_renders_witness :
    (send_action "stop" ⟨true, true, true⟩ (some (500, []))).2.2 =
      [Event.httpCall "action=stop",
       Event.setRemote false,
       Event.render ((send_action "stop" ⟨true, true, true⟩ (some (500, []))).2.1)] ∧
    ((send_action "stop" ⟨true, true, true⟩ (some (500, []))).2.1).remote_status = false :=
  send_action_failure_clears_then_renders "stop" ⟨true, true, true⟩
    (some (500, [])) rfl (by decide)

/-- C5: `check_remote_endpoint` returns true iff the link is up and the
GET completed with status 200; the returned boolean is exactly what is
stored into `remote_status`; the other flags are untouched; and when
`wifi_status` is false it performs no network call and returns false. -/
theorem check_remote_endpoint_spec (f : Flags) (resp : Option HttpResp) :
    ((check_remote_endpoint f resp).1 = true ↔
      (f.wifi_status = true ∧ ∃ body, resp = some (200, body))) ∧
    ((check_remote_endpoint f resp).2.1).remote_status = (check_remote_endpoint f resp).1 ∧
    ((check_remote_endpoint f resp).2.1).boot_status = f.boot_status ∧
    ((check_remote_endpoint f resp).2.1).wifi_status = f.wifi_status ∧
    (f.wifi_status = false →
      (check_remote_endpoint f resp).2.2 = 0 ∧ (check_remote_endpoint f resp).1 = false) := by
  unfold check_remote_endpoint
  by_cases hw : f.wifi_status = false
  · simp [hw]
  · rw [if_neg hw]
    simp only [Bool.not_eq_false] at hw
    cases resp with
    | none => simp [hw]
    | some r =>
        obtain ⟨status, body⟩ := r
        by_cases h200 : status = 200
        · simp [hw, h200]
        · simp [hw, h200, beq_iff_eq]

/-- Witness for `check_remote_endpoint_spec`: with the link down the
call performs no network I/O and fails (the final conjunct discharged at
`wifi_status = false`). -/
theorem check_remote_endpoint_spec_witness :
    (check_remote_endpoint ⟨true, false, true⟩ (some (200, []))).2.2 = 0 ∧
    (check_remote_endpoint ⟨true, false, true⟩ (some (200, []))).1 = false :=
  (check_remote_endpoint_spec ⟨true, false, true⟩ (some (200, []))).2.2.2.2 rfl

/-! ### Theorems: keypad edge detection and dispatch (C2) -/

/-- Python's `n & (1 << p)` truthiness is the `p`-th bit of `n`. -/
theorem and_shift_ne_zero (n p : Nat) : (n &&& (1 <<< p) != 0) = n.testBit p := by
  rw [Nat.one_shiftLeft, Nat.and_two_pow]
  cases h : n.testBit p
  · simp
  · simp [Nat.pos_iff_ne_zero, Nat.pos_pow_of_pos, Nat.two_pow_pos]

/-- The rising-edge test in terms of `testBit`. -/
theorem newly_pressed_eq (last cur pad : Nat) :
    newly_pressed last cur pad = (cur.testBit pad && !last.testBit pad) := by
  unfold newly_pressed
  rw [and_shift_ne_zero, and_shift_ne_zero]

/-- The dispatched indices are the mapped keys with a rising edge,
filtered in the key map's iteration order. -/
theorem dispatched_eq (last cur : Nat) :
    dispatched last cur =
      (CONTROLLER_ACTIONS.map Prod.fst).filter
        (fun i => cur.testBit i && !last.testBit i) := by
  unfold dispatched risingEdges
  rw [List.filter_map]
  simp only [newly_pressed_eq, Function.comp]
  rfl

/-- Filtering any duplicate-free key list for rising edges after setting
the single fresh bit `i` keeps exactly the one entry `i`. -/
theorem filter_single_new_bit (last i : Nat) (hbit : last.testBit i = false) :
    ∀ keys : List Nat, keys.Nodup → i ∈ keys →
      keys.filter (fun j => (last ||| (1 <<< i)).testBit j && !last.testBit j) = [i] := by
  intro keys
  induction keys with
  | nil => intro _ h; exact absurd h (List.not_mem_nil i)
  | cons k ks ih =>
      intro hnd hmem
      rw [List.filter_cons]
      by_cases hk : k = i
      · subst hk
        have hpred : ((last ||| (1 <<< k)).testBit k && !last.testBit k) = true := by
          simp [Nat.one_shiftLeft, Nat.testBit_two_pow, hbit]
        rw [hpred, if_pos rfl]
        have hks : k ∉ ks := (List.nodup_cons.mp hnd).1
        have hnil : ks.filter (fun j => (last ||| (1 <<< k)).testBit j && !last.testBit j) = [] := by
          rw [List.filter_eq_nil_iff]
          intro j hj
          have hji : k ≠ j := fun h => hks (h ▸ hj)
          simp [Nat.one_shiftLeft, Nat.testBit_two_pow, hji]
        rw [hnil]
      · have hpred : ((last ||| (1 <<< i)).testBit k && !last.testBit k) = false := by
          have hik : i ≠ k := fun h => hk h.symm
          simp [Nat.one_shiftLeft, Nat.testBit_two_pow, hik]
        rw [hpred, if_neg (by simp)]
        exact ih (List.nodup_cons.mp hnd).2
          ((List.mem_cons.mp hmem).resolve_left (fun h => hk h.symm))

/-- C2 counterexample: pressing keys 4 and 14 simultaneously dispatches
`[14, 4]` — the key map's `dict` insertion order — not the claimed
ascending index order `[4, 14]`. -/
theorem dispatched_order_counterexample :
    dispatched 0 ((1 <<< 4) ||| (1 <<< 14)) = [14, 4] ∧
    dispatched 0 ((1 <<< 4) ||| (1 <<< 14)) ≠ [4, 14] ∧
    ¬ (dispatched 0 ((1 <<< 4) ||| (1 <<< 14))).Sorted (· ≤ ·) := by
  decide

/-- C2 (amended): the dispatched indices are exactly the indices whose
bit is set in `cur` but not in `last` and that are present in the key
map, emitted in the deterministic fixed order in which
`CONTROLLER_ACTIONS` iterates (6, 9, 10, 11, 14, 4, 8 — its insertion
order, not ascending); the sequence is empty when `last = cur`, and a
single newly set mapped bit yields exactly that index. -/
theorem dispatched_spec :
    (∀ last cur, dispatched last cur =
      [6, 9, 10, 11, 14, 4, 8].filter (fun i => cur.testBit i && !last.testBit i)) ∧
    (∀ last cur i, i ∈ dispatched last cur ↔
      (cur.testBit i = true ∧ last.testBit i = false ∧ i ∈ CONTROLLER_ACTIONS.map Prod.fst)) ∧
    (∀ s, dispatched s s = []) ∧
    (∀ last i, i ∈ CONTROLLER_ACTIONS.map Prod.fst → last.testBit i = false →
      dispatched last (last ||| (1 <<< i)) = [i]) := by
  refine ⟨?_, ?_, ?_, ?_⟩
  · intro last cur
    rw [dispatched_eq]
    rfl
  · intro last cur i
    rw [dispatched_eq, List.mem_filter]
    constructor
    · rintro ⟨hmem, hbits⟩
      simp only [Bool.and_eq_true, Bool.not_eq_true'] at hbits
      exact ⟨hbits.1, hbits.2, hmem⟩
    · rintro ⟨hc, hl, hmem⟩
      exact ⟨hmem, by simp [hc, hl]⟩
  · intro s
    rw [dispatched_eq]
    simp [Bool.and_not_self]
  · intro last i hmem hbit
    rw [dispatched_eq]
    have hkeys : CONTROLLER_ACTIONS.map Prod.fst = [6, 9, 10, 11, 14, 4, 8] := rfl
    rw [hkeys] at hmem ⊢
    exact filter_single_new_bit last i hbit _ (by decide) hmem

/-- Witness for `dispatched_spec`: a single new press of the stop key
(index 10) dispatches exactly `[10]`. -/
theorem dispatched_spec_witness :
    dispatched 0 (0 ||| (1 <<< 10)) = [10] :=
  dispatched_spec.2.2.2 0 10 (by decide) (by decide)

/-! ### Theorems: connectivity-state invariants (C3, C10) and boot (C9) -/

/-- `send_action` never touches `boot_status` or `wifi_status`. -/
theorem send_action_preserves_boot_wifi (a : String) (f : Flags) (r : Option HttpResp) :
    (send_action a f r).2.1.boot_status = f.boot_status ∧
    (send_action a f r).2.1.wifi_status = f.wifi_status := by
  unfold send_action
  by_cases hw : f.wifi_status = false
  · simp [hw]
  · rw [if_neg hw]
    cases r with
    | none => simp
    | some p =>
        obtain ⟨status, body⟩ := p
        by_cases h : status == 200 <;> simp [h]

/-- `send_action` never raises `remote_status`: if it is true afterwards
it was true before. -/
theorem send_action_remote_mono (a : String) (f : Flags) (r : Option HttpResp)
    (h : (send_action a f r).2.1.remote_status = true) : f.remote_status = true := by
  unfold send_action at h
  by_cases hw : f.wifi_status = false
  · simpa [hw] using h
  · rw [if_neg hw] at h
    cases r with
    | none => simp at h
    | some p =>
        obtain ⟨status, body⟩ := p
        by_cases h200 : status == 200
        · simpa [h200] using h
        · simp [h200] at h

/-- A successful `send_action` (status 200) leaves the flags unchanged. -/
theorem send_action_success_id (a : String) (f : Flags) (r : Option HttpResp)
    (h : (send_action a f r).1 = true) : (send_action a f r).2.1 = f := by
  unfold send_action at *
  by_cases hw : f.wifi_status = false
  · simp [hw] at h
  · rw [if_neg hw] at *
    cases r with
    | none => simp at h
    | some p =>
        obtain ⟨status, body⟩ := p
        by_cases h200 : status == 200
        · simp [h200]
        · simp [h200] at h

/-- C3: in every reachable flag state — after every transition of the
boot sequence and of the keypad loop — `remote_status = true` implies
`wifi_status = true`, and `remote_status` is false whenever
`wifi_status` is false. -/
theorem remote_implies_wifi (f : Flags) (h : Reachable f) :
    (f.remote_status = true → f.wifi_status = true) ∧
    (f.wifi_status = false → f.remote_status = false) := by
  induction h with
  | ofBoot credsOk wifiOk pingResp f hmem =>
      cases credsOk with
      | false =>
          simp only [initFlagsTrace, initialFlags, if_pos, List.mem_singleton] at hmem
          subst hmem
          exact ⟨fun h => absurd h Bool.false_ne_true, fun _ => rfl⟩
      | true =>
          simp only [initFlagsTrace, initialFlags, Bool.true_eq_false, if_false,
            List.mem_cons, List.not_mem_nil, or_false] at hmem
          rcases hmem with rfl | rfl | rfl | rfl
          · exact ⟨fun h => absurd h Bool.false_ne_true, fun _ => rfl⟩
          · exact ⟨fun h => absurd h Bool.false_ne_true, fun _ => rfl⟩
          · exact ⟨fun h => absurd h Bool.false_ne_true, fun _ => rfl⟩
          · unfold check_remote_endpoint
            cases wifiOk with
            | false => simp
            | true =>
                cases pingResp with
                | none => simp
                | some p => obtain ⟨status, body⟩ := p; simp
  | ofSend a r f _ ih =>
      have hw := (send_action_preserves_boot_wifi a f r).2
      constructor
      · intro hr
        rw [hw]
        exact ih.1 (send_action_remote_mono a f r hr)
      · intro hwf
        rw [hw] at hwf
        cases hres : (send_action a f r).2.1.remote_status with
        | false => rfl
        | true =>
            exact absurd (ih.1 (send_action_remote_mono a f r hres))
              (by rw [hwf]; exact Bool.false_ne_true)

/-- Witness for `remote_implies_wifi`: the state reached after a boot
whose ping succeeded has `remote_status = true`, and the theorem yields
`wifi_status = true` there. -/
theorem remote_implies_wifi_witness :
    (⟨true, true, true⟩ : Flags).wifi_status = true :=
  (remote_implies_wifi ⟨true, true, true⟩
      (Reachable.ofBoot true true (some (200, [])) ⟨true, true, true⟩ (by decide))).1 rfl

/-- `runActions` never raises `remote_status`. -/
theorem runActions_remote_mono (l : List (String × Option HttpResp)) :
    ∀ f : Flags, f.remote_status = false → (runActions f l).remote_status = false := by
  induction l with
  | nil => intro f h; exact h
  | cons p rest ih =>
      intro f h
      obtain ⟨a, r⟩ := p
      show (runActions (send_action a f r).2.1 rest).remote_status = false
      apply ih
      cases hres : (send_action a f r).2.1.remote_status with
      | false => rfl
      | true =>
          exact absurd (send_action_remote_mono a f r hres)
            (by rw [h]; exact Bool.false_ne_true)

/-- C10: after boot, the keypad loop never sets `remote_status` back to
true — a successful `send_action` leaves the flags unchanged, a send
that returns to a true `remote_status` must have started from one, and
once `remote_status` is false it stays false over any run of the loop. -/
theorem remote_status_never_revives :
    (∀ a f r, (send_action a f r).1 = true → (send_action a (f : Flags) r).2.1 = f) ∧
    (∀ a f r, (send_action a (f : Flags) r).2.1.remote_status = true →
      f.remote_status = true) ∧
    (∀ (f : Flags) (its : List IterIn), f.remote_status = false →
      (runLoop f its).remote_status = false) := by
  refine ⟨send_action_success_id, send_action_remote_mono, ?_⟩
  intro f its
  induction its generalizing f with
  | nil => intro h; exact h
  | cons it rest ih =>
      intro h
      show (runLoop (loopIter f it) rest).remote_status = false
      exact ih _ (runActions_remote_mono _ f h)

/-- Witness for `remote_status_never_revives`: one iteration pressing the
stop key against a 500-responding endpoint keeps `remote_status` false. -/
theorem remote_status_never_revives_witness :
    (runLoop ⟨true, true, false⟩ [⟨0, 1 <<< 10, fun _ => some (500, [])⟩]).remote_status
      = false :=
  remote_status_never_revives.2.2 ⟨true, true, false⟩
    [⟨0, 1 <<< 10, fun _ => some (500, [])⟩] rfl

/-- C9: with missing credentials (`CREDENTIALS_OK = False`), the boot
sequence aborts immediately: the flags stay all-false (in particular
`boot_status = false`), no WiFi association is attempted, and no
status-row or controller-layout render is performed by `initialize()` —
its event trace is empty. -/
theorem missing_credentials_aborts (wifiOk : Bool) (pingResp : Option HttpResp) :
    runBoot false wifiOk pingResp = (initialFlags, []) ∧
    initialFlags.boot_status = false := by
  exact ⟨rfl, rfl⟩

/-! ### Theorems: LED rendering (C7, C8) -/

/-- Pointwise effect of the baseline loop: pads below `n` outside the
status row get the white-dim baseline, everything else is untouched. -/
theorem baselineLoop_apply (leds : Leds) (n j : Nat) :
    baselineLoop leds n j =
      if j < n ∧ ¬(j = STATUS_BOOT_PAD ∨ j = STATUS_WIFI_PAD ∨ j = STATUS_REMOTE_PAD)
      then WHITE_DIM else leds j := by
  induction n with
  | zero => simp [baselineLoop]
  | succ n ih =>
      unfold baselineLoop
      by_cases hs : n = STATUS_BOOT_PAD ∨ n = STATUS_WIFI_PAD ∨ n = STATUS_REMOTE_PAD
      · rw [if_pos hs, ih]
        by_cases hj : j = n
        · subst hj
          simp [hs]
        · by_cases hlt : j < n
          · have h1 : j < n + 1 := by omega
            simp [hlt, h1]
          · have h1 : ¬j < n + 1 := by omega
            simp [hlt, h1]
      · rw [if_neg hs]
        unfold illuminate
        by_cases hj : j = n
        · subst hj
          simp [hs]
        · rw [if_neg hj, ih]
          by_cases hlt : j < n
          · have h1 : j < n + 1 := by omega
            simp [hlt, h1]
          · have h1 : ¬j < n + 1 := by omega
            simp [hlt, h1]

/-- `illuminate` leaves every other pad untouched. -/
theorem illuminate_apply_ne (leds : Leds) (i : Nat) (c : Color) (j : Nat) (h : j ≠ i) :
    illuminate leds i c j = leds j := if_neg h

/-- A full redraw never writes pads beyond the grid. -/
theorem show_controller_pattern_apply_ge (f : Flags) (leds : Leds) (j : Nat)
    (h : NUM_PADS ≤ j) : show_controller_pattern f leds j = leds j := by
  have hj : ¬j < NUM_PADS := by omega
  have hne : ∀ i, i < NUM_PADS → j ≠ i := by
    unfold NUM_PADS at h
    intro i hi he
    unfold NUM_PADS at hi
    omega
  unfold show_controller_pattern update_status_leds
  unfold STATUS_BOOT_PAD STATUS_WIFI_PAD STATUS_REMOTE_PAD STATUS_COMPANION_PAD
    CONTROLLER_UP CONTROLLER_LEFT CONTROLLER_STOP CONTROLLER_RIGHT CONTROLLER_DOWN
    FUNCTION_KEY_1 FUNCTION_KEY_2 FUNCTION_KEY_3
  rw [illuminate_apply_ne _ _ _ _ (hne 3 (by decide)),
      illuminate_apply_ne _ _ _ _ (hne 2 (by decide)),
      illuminate_apply_ne _ _ _ _ (hne 1 (by decide)),
      illuminate_apply_ne _ _ _ _ (hne 0 (by decide)),
      illuminate_apply_ne _ _ _ _ (hne 12 (by decide)),
      illuminate_apply_ne _ _ _ _ (hne 8 (by decide)),
      illuminate_apply_ne _ _ _ _ (hne 4 (by decide)),
      illuminate_apply_ne _ _ _ _ (hne 14 (by decide)),
      illuminate_apply_ne _ _ _ _ (hne 11 (by decide)),
      illuminate_apply_ne _ _ _ _ (hne 10 (by decide)),
      illuminate_apply_ne _ _ _ _ (hne 9 (by decide)),
      illuminate_apply_ne _ _ _ _ (hne 6 (by decide)),
      baselineLoop_apply, if_neg (fun hcon => hj hcon.1)]

/-- Pointwise effect of a full redraw: every pad's staged color is the
flag-determined `patternColor`; indices beyond the grid are untouched. -/
theorem show_controller_pattern_apply (f : Flags) (leds : Leds) (j : Nat) :
    show_controller_pattern f leds j =
      if j < NUM_PADS then patternColor f j else leds j := by
  by_cases hj : j < NUM_PADS
  · rw [if_pos hj]
    unfold NUM_PADS at hj
    have hcases : j = 0 ∨ j = 1 ∨ j = 2 ∨ j = 3 ∨ j = 4 ∨ j = 5 ∨ j = 6 ∨ j = 7 ∨
        j = 8 ∨ j = 9 ∨ j = 10 ∨ j = 11 ∨ j = 12 ∨ j = 13 ∨ j = 14 ∨ j = 15 := by
      omega
    rcases hcases with rfl | rfl | rfl | rfl | rfl | rfl | rfl | rfl |
      rfl | rfl | rfl | rfl | rfl | rfl | rfl | rfl <;> rfl
  · rw [if_neg hj]
    exact show_controller_pattern_apply_ge f leds j (by omega)

/-- C7: a full redraw is idempotent — for any fixed flag values, two
consecutive `show_controller_pattern` calls stage exactly the same
per-key colors as one, so periodic redraws with unchanged state cause no
visible difference. -/
theorem show_controller_pattern_idempotent (f : Flags) (leds : Leds) :
    show_controller_pattern f (show_controller_pattern f leds) =
      show_controller_pattern f leds := by
  funext j
  simp only [show_controller_pattern_apply]
  by_cases hj : j < NUM_PADS <;> simp [hj]

/-- C8: after every full redraw, whatever the previously staged colors,
the status row is the final word — pads 0, 1 and 2 are green-dim exactly
when the corresponding flag is true and red otherwise, and the companion
pad 3 is always orange, independent of the flags. -/
theorem status_row_is_final_word (f : Flags) (leds : Leds) :
    show_controller_pattern f leds STATUS_BOOT_PAD =
      (if f.boot_status then GREEN_DIM else RED) ∧
    show_controller_pattern f leds STATUS_WIFI_PAD =
      (if f.wifi_status then GREEN_DIM else RED) ∧
    show_controller_pattern f leds STATUS_REMOTE_PAD =
      (if f.remote_status then GREEN_DIM else RED) ∧
    show_controller_pattern f leds STATUS_COMPANION_PAD = ORANGE := by
  refine ⟨?_, ?_, ?_, ?_⟩ <;>
    rw [show_controller_pattern_apply] <;> rfl

/-! ### Theorems: HTTP response parsing (C6) -/

/-- `splitOnce` splits at the least index where `sep` occurs (or not at
all), so Python's `split(sep, 1)` is first-occurrence splitting. -/
theorem splitOnce_eq_findSub (sep : List Char) (l : List Char) :
    splitOnce sep l =
      match findSub sep l with
      | some i => [l.take i, l.drop (i + sep.length)]
      | none => [l] := by
  induction l with
  | nil => rfl
  | cons c rest ih =>
      by_cases h : sep.isPrefixOf (c :: rest) = true
      · unfold splitOnce findSub
        rw [if_pos h, if_pos h]
        simp
      · unfold splitOnce findSub
        rw [if_neg h, if_neg h]
        cases hf : findSub sep rest with
        | none =>
            rw [hf] at ih
            rw [ih]
            rfl
        | some i =>
            rw [hf] at ih
            rw [ih]
            have harith : i + 1 + sep.length = (i + sep.length) + 1 := by omega
            simp [harith]

/-- C6: the transport parser splits the raw bytes at the first blank-line
(CRLFCRLF) boundary into header block and body and takes the status from
the second whitespace-delimited token of the first header line, 0 when
that token is absent or non-numeric (`spec_parse` states exactly this
wording); in particular the two scenario byte strings parse to
`(200, b"OK")` and `(0, b"")`. -/
theorem http_parse_spec :
    (∀ data, http_parse data = spec_parse data) ∧
    http_parse ("HTTP/1.1 200 OK\r\nHost: x\r\n\r\nOK".toList) = (200, "OK".toList) ∧
    http_parse ("garbage\r\n\r\n".toList) = (0, []) := by
  refine ⟨?_, by decide, by decide⟩
  intro data
  simp only [http_parse, spec_parse, splitOnce_eq_findSub]
  cases h1 : findSub CRLFCRLF data with
  | none =>
      cases h2 : findSub CRLF data with
      | none => simp [h2]
      | some k => simp [h2]
  | some i =>
      cases h2 : findSub CRLF (data.take i) with
      | none => simp [h2, CRLFCRLF]
      | some k => simp [h2, CRLFCRLF]

end Tobot
